import Mathlib

/-!
Shallow embedding of the WindowsCrafted relay server core: the
`connectedClients` registry, `broadcastToClients`, `sendToDevice`, the
`MemStorage` entity store, the WebSocket session handlers (`AUTH`,
`COMMAND_RESPONSE`, `DEVICE_INFO`, `close`) and the `POST /api/commands`
route handler.  JSON payloads that the control flow never inspects are
modelled as opaque strings; wall-clock timestamps (`new Date()`) are
naturals threaded in as a `now` parameter.
-/

namespace WindowsCrafted

/-- readyState of a `ws` WebSocket (library constants).  The server code
only ever compares against `WebSocket.OPEN`. -/
inductive ReadyState where
  | CONNECTING
  | OPEN
  | CLOSING
  | CLOSED
  deriving DecidableEq, Repr

/-- Reference identity of a `WebSocket` object.  The server compares
sockets with `!==` (reference equality), modelled as equality of ids. -/
structure WsRef where
  id : Nat
  deriving DecidableEq, Repr

/-- One entry of the `connectedClients` array (interface `ConnectedClient`):
the socket (with its current transport readyState) and the optional
device / user binding set by the `AUTH` handler. -/
structure ConnectedClient where
  ws : WsRef
  readyState : ReadyState
  deviceId : Option String := none
  userId : Option Nat := none
  deriving DecidableEq, Repr

/-- `connectedClients.find(client => client.deviceId === deviceId)`
as used by `sendToDevice`: the first match in array order, which is
registration order (`connectedClients.push`). -/
def findByDevice : List ConnectedClient → String → Option ConnectedClient
  | [], _ => none
  | c :: rest, d =>
    if c.deviceId = some d then some c else findByDevice rest d

/-- `broadcastToClients(data, excludeClient)`: iterate `connectedClients`,
writing to every client whose socket is not the excluded one and whose
readyState is OPEN.  The payload is opaque to the delivery logic; the
function returns the list of sockets written to, in iteration order
(the observable effect of the `ws.send` calls). -/
def broadcastToClients : List ConnectedClient → Option WsRef → List WsRef
  | [], _ => []
  | c :: rest, excl =>
    if excl ≠ some c.ws ∧ c.readyState = ReadyState.OPEN then
      c.ws :: broadcastToClients rest excl
    else
      broadcastToClients rest excl

/-- `sendToDevice(deviceId, data)`: find the client bound to `deviceId`;
if found and its socket is OPEN, write the message and return `true`,
otherwise return `false`.  The payload is opaque and never branches the
control flow, so it is not a parameter of the model. -/
def sendToDevice (clients : List ConnectedClient) (deviceId : String) : Bool :=
  match findByDevice clients deviceId with
  | some deviceClient =>
    if deviceClient.readyState = ReadyState.OPEN then true else false
  | none => false

/-- A stored device row (the fields of `shared/schema.ts` `devices` that the
server logic reads or writes; the `info` JSON payload is opaque). -/
structure Device where
  id : Nat
  deviceId : String
  name : String
  platform : String
  os : String
  status : String
  lastActive : Nat
  createdAt : Nat
  info : String
  deriving DecidableEq, Repr

/-- A stored command row (`shared/schema.ts` `commands`; `parameters` is an
opaque JSON payload). -/
structure Command where
  id : Nat
  deviceId : String
  command : String
  parameters : String
  status : String
  result : String
  createdAt : Nat
  completedAt : Option Nat
  deriving DecidableEq, Repr

/-- A stored activity row (`shared/schema.ts` `activities`; the opaque
`details` payload is never read back by the server and is omitted). -/
structure Activity where
  id : Nat
  deviceId : Option String
  activityType : String
  description : String
  status : Option String
  createdAt : Nat
  deriving DecidableEq, Repr

/-- The `Partial<Device>` patches the server actually passes to
`updateDevice`; `none` means the field is absent from the patch. -/
structure DevicePatch where
  status : Option String := none
  lastActive : Option Nat := none
  info : Option String := none
  deriving Repr

/-- The `Partial<Command>` patches the server actually passes to
`updateCommand`; `none` means the field is absent from the patch. -/
structure CommandPatch where
  status : Option String := none
  result : Option String := none
  completedAt : Option (Option Nat) := none
  deriving Repr

/-- The in-memory entity store (`MemStorage`), restricted to the maps the
server core touches.  A JS `Map` iterates in insertion order and `set` on
an existing key overwrites in place, so each map is a list in insertion
order; `currentId` counters assign fresh ids. -/
structure Storage where
  devices : List Device
  commands : List Command
  activities : List Activity
  currentDeviceIdCtr : Nat
  currentCommandIdCtr : Nat
  currentActivityIdCtr : Nat
  deriving Repr

/-- `Array.from(this.devices.values()).find(d => d.deviceId === deviceId)`. -/
def getDeviceByDeviceId : List Device → String → Option Device
  | [], _ => none
  | d :: rest, did =>
    if d.deviceId = did then some d else getDeviceByDeviceId rest did

/-- `this.devices.get(id)` (keys are unique in a `Map`). -/
def getDeviceById : List Device → Nat → Option Device
  | [], _ => none
  | d :: rest, i => if d.id = i then some d else getDeviceById rest i

/-- `this.commands.get(id)`. -/
def getCommandById : List Command → Nat → Option Command
  | [], _ => none
  | c :: rest, i => if c.id = i then some c else getCommandById rest i

/-- `this.devices.set(i, d)` on an existing key: overwrite in place,
keeping insertion order. -/
def setDevice : List Device → Nat → Device → List Device
  | [], _, _ => []
  | x :: rest, i, d => (if x.id = i then d else x) :: setDevice rest i d

/-- `this.commands.set(i, c)` on an existing key. -/
def setCommand : List Command → Nat → Command → List Command
  | [], _, _ => []
  | x :: rest, i, c => (if x.id = i then c else x) :: setCommand rest i c

/-- JS spread-merge `{ ...device, ...updatedFields }` for the device
patches the server sends. -/
def applyDevicePatch (d : Device) (p : DevicePatch) : Device :=
  { d with
    status := p.status.getD d.status
    lastActive := p.lastActive.getD d.lastActive
    info := p.info.getD d.info }

/-- JS spread-merge `{ ...command, ...updatedFields }`. -/
def applyCommandPatch (c : Command) (p : CommandPatch) : Command :=
  { c with
    status := p.status.getD c.status
    result := p.result.getD c.result
    completedAt := p.completedAt.getD c.completedAt }

/-- `MemStorage.updateDevice(id, updatedFields)`: spread-merge the patch
into the existing row; `undefined` when the id is unknown.  Note: this
method does not touch `lastActive` unless the patch itself carries it. -/
def updateDevice (s : Storage) (i : Nat) (p : DevicePatch) :
    Storage × Option Device :=
  match getDeviceById s.devices i with
  | none => (s, none)
  | some d =>
    let d2 := applyDevicePatch d p
    ({ s with devices := setDevice s.devices i d2 }, some d2)

/-- `MemStorage.updateDeviceStatus(deviceId, status)`: find the row by
external deviceId; set `status` and stamp `lastActive` with the current
time.  `undefined` when no row matches. -/
def updateDeviceStatus (s : Storage) (did status : String) (now : Nat) :
    Storage × Option Device :=
  match getDeviceByDeviceId s.devices did with
  | none => (s, none)
  | some d =>
    let d2 := { d with status := status, lastActive := now }
    ({ s with devices := setDevice s.devices d.id d2 }, some d2)

/-- `MemStorage.createCommand`: fresh id from the counter, created with
status `pending`, empty result, null completedAt; appended to the map. -/
def createCommand (s : Storage) (did command parameters : String) (now : Nat) :
    Storage × Command :=
  let i := s.currentCommandIdCtr
  let c : Command :=
    { id := i, deviceId := did, command := command, parameters := parameters,
      status := "pending", result := "", createdAt := now, completedAt := none }
  ({ s with commands := s.commands ++ [c], currentCommandIdCtr := i + 1 }, c)

/-- `MemStorage.updateCommand(id, updatedFields)`: spread-merge;
additionally, when the patch sets status to `completed` or `failed`,
`completedAt` is stamped with the current time.  There is no guard on the
current status of the command being updated. -/
def updateCommand (s : Storage) (i : Nat) (p : CommandPatch) (now : Nat) :
    Storage × Option Command :=
  match getCommandById s.commands i with
  | none => (s, none)
  | some c =>
    let c1 := applyCommandPatch c p
    let c2 :=
      if p.status = some "completed" ∨ p.status = some "failed" then
        { c1 with completedAt := some now }
      else c1
    ({ s with commands := setCommand s.commands i c2 }, some c2)

/-- `MemStorage.createActivity`: fresh id, stamped with the current time,
appended to the map (append-only log). -/
def createActivity (s : Storage) (did : Option String)
    (activityType description : String) (status : Option String) (now : Nat) :
    Storage × Activity :=
  let i := s.currentActivityIdCtr
  let a : Activity :=
    { id := i, deviceId := did, activityType := activityType,
      description := description, status := status, createdAt := now }
  ({ s with activities := s.activities ++ [a], currentActivityIdCtr := i + 1 }, a)

/-- Outbound payloads the server passes to `broadcastToClients`. -/
inductive Msg where
  | DEVICE_STATUS_CHANGED (deviceId status : String)
  | COMMAND_STATUS_CHANGED (commandId : Nat) (status result : String)
  | DEVICE_INFO_UPDATED (deviceId info : String)
  | DEVICE_REMOVED (deviceId : String)
  deriving DecidableEq, Repr

/-- One call the server makes to `broadcastToClients`: the payload and the
excluded socket, if any.  Handlers return the list of such calls they make,
in order. -/
structure BroadcastCall where
  msg : Msg
  excludeClient : Option WsRef
  deriving DecidableEq, Repr

/-- The whole mutable server state: the `connectedClients` registry and the
`storage` singleton. -/
structure ServerState where
  clients : List ConnectedClient
  storage : Storage
  deriving Repr

/-- JS truthiness of an optional string field (absent or empty is falsy),
as in `if (data.token)`. -/
def truthyStr : Option String → Bool
  | none => false
  | some s => decide (s ≠ "")

/-- JS truthiness of an optional numeric field (absent or zero is falsy),
as in `else if (data.userId)`. -/
def truthyNat : Option Nat → Bool
  | none => false
  | some n => decide (n ≠ 0)

/-- The `clientInfo` closure variable for socket `w`: its entry in
`connectedClients` (first match; a socket object occurs at most once). -/
def findClient : List ConnectedClient → WsRef → Option ConnectedClient
  | [], _ => none
  | c :: rest, w => if c.ws = w then some c else findClient rest w

/-- `clientInfo.deviceId = data.deviceId`: rebind the device identity on the
socket's entry, whatever was bound before. -/
def bindDeviceId : List ConnectedClient → WsRef → String → List ConnectedClient
  | [], _, _ => []
  | c :: rest, w, did =>
    (if c.ws = w then { c with deviceId := some did } else c) ::
      bindDeviceId rest w did

/-- `clientInfo.userId = data.userId`. -/
def bindUserId (clients : List ConnectedClient) (w : WsRef) (uid : Nat) :
    List ConnectedClient :=
  clients.map fun c => if c.ws = w then { c with userId := some uid } else c

/-- `connectedClients = connectedClients.filter(c => c.ws !== ws)`. -/
def removeClient : List ConnectedClient → WsRef → List ConnectedClient
  | [], _ => []
  | c :: rest, w =>
    if c.ws = w then removeClient rest w else c :: removeClient rest w

/-- `wss.on('connection')`: push a fresh unbound entry for the newly
accepted socket; an accepted socket starts OPEN. -/
def handleConnection (st : ServerState) (w : WsRef) : ServerState :=
  { st with clients := st.clients ++ [{ ws := w, readyState := ReadyState.OPEN }] }

/-- Environment event, not server code: the transport readyState of a
socket changes (e.g. the peer vanishes and the socket becomes CLOSED
before the asynchronous `close` event is delivered to the server). -/
def setReadyState (st : ServerState) (w : WsRef) (rs : ReadyState) : ServerState :=
  { st with clients := st.clients.map fun c =>
      if c.ws = w then { c with readyState := rs } else c }

/-- Description string of the command-completion activity: the template
interpolation producing `Command <status>: '<command>'` with single quotes
around the command name. -/
def descCommandDone (status command : String) : String :=
  "Command " ++ status ++ ": '" ++ command ++ "'"

/-- Description string of the command-creation activity: the template
interpolation producing `Command created: '<command>'` with single quotes
around the command name. -/
def descCommandCreated (command : String) : String :=
  "Command created: '" ++ command ++ "'"

/-- The `AUTH` branch of the message handler.  A truthy `token` sets
`clientInfo.deviceId = data.deviceId` unconditionally; the store update,
the activity and the broadcast happen only when a device row matches
`data.deviceId`.  Otherwise a truthy `userId` binds the user identity with
no further side effects. -/
def handleAuth (st : ServerState) (w : WsRef) (token : Option String)
    (userId : Option Nat) (deviceId : String) (now : Nat) :
    ServerState × List BroadcastCall :=
  if truthyStr token then
    let clients2 := bindDeviceId st.clients w deviceId
    match getDeviceByDeviceId st.storage.devices deviceId with
    | some _ =>
      let s1 := (updateDeviceStatus st.storage deviceId "online" now).1
      let s2 := (createActivity s1 (some deviceId) "status" "Device connected"
        (some "completed") now).1
      ({ clients := clients2, storage := s2 },
        [{ msg := Msg.DEVICE_STATUS_CHANGED deviceId "online",
           excludeClient := some w }])
    | none => ({ clients := clients2, storage := st.storage }, [])
  else if truthyNat userId then
    ({ st with clients := bindUserId st.clients w (userId.getD 0) }, [])
  else
    (st, [])

/-- The `COMMAND_RESPONSE` branch: guarded by the JS truthiness of
`clientInfo.deviceId` (`&& clientInfo.deviceId`), so it runs only when the
binding is present AND nonempty.  Updates the command (status, result,
completedAt stamped with the current time); when the command row exists,
appends an activity and broadcasts COMMAND_STATUS_CHANGED; when the
commandId is unknown, `updateCommand` returns `undefined` and nothing
further happens. -/
def handleCommandResponse (st : ServerState) (w : WsRef) (commandId : Nat)
    (status result : String) (now : Nat) : ServerState × List BroadcastCall :=
  match findClient st.clients w with
  | none => (st, [])
  | some clientInfo =>
    match clientInfo.deviceId with
    | none => (st, [])
    | some boundId =>
      if boundId = "" then (st, [])
      else
        let r := updateCommand st.storage commandId
          { status := some status, result := some result,
            completedAt := some (some now) } now
        match r.2 with
        | some command =>
          let s2 := (createActivity r.1 (some command.deviceId) "command"
            (descCommandDone status command.command) (some status) now).1
          ({ st with storage := s2 },
            [{ msg := Msg.COMMAND_STATUS_CHANGED commandId status result,
               excludeClient := none }])
        | none => ({ st with storage := r.1 }, [])

/-- The `DEVICE_INFO` branch: guarded by the JS truthiness of
`clientInfo.deviceId` (present AND nonempty) and by the device row
existing; merges `info` via `updateDevice` and broadcasts
DEVICE_INFO_UPDATED.  `now` is the wall clock at processing time; this
code path never reads it (it stamps no timestamp). -/
def handleDeviceInfo (st : ServerState) (w : WsRef) (info : String)
    (now : Nat) : ServerState × List BroadcastCall :=
  match findClient st.clients w with
  | none => (st, [])
  | some clientInfo =>
    match clientInfo.deviceId with
    | none => (st, [])
    | some did =>
      if did = "" then (st, [])
      else
        match getDeviceByDeviceId st.storage.devices did with
        | none => (st, [])
        | some device =>
          let s1 := (updateDevice st.storage device.id { info := some info }).1
          ({ st with storage := s1 },
            [{ msg := Msg.DEVICE_INFO_UPDATED did info,
               excludeClient := none }])

/-- `ws.on('close')`: when `clientInfo.deviceId` is truthy (present AND
nonempty — the JS guard `if (clientInfo.deviceId)`), mark the device
offline (`updateDeviceStatus` is a no-op on devices when the id is
unknown), append a "Device disconnected" activity and broadcast
DEVICE_STATUS_CHANGED offline — all without consulting the stored status
or the row's existence; finally filter the socket's entry out of
`connectedClients`. -/
def handleClose (st : ServerState) (w : WsRef) (now : Nat) :
    ServerState × List BroadcastCall :=
  let r :=
    match findClient st.clients w with
    | none => (st.storage, ([] : List BroadcastCall))
    | some clientInfo =>
      match clientInfo.deviceId with
      | none => (st.storage, [])
      | some did =>
        if did = "" then (st.storage, [])
        else
          let s1 := (updateDeviceStatus st.storage did "offline" now).1
          let s2 := (createActivity s1 (some did) "status"
            "Device disconnected" (some "completed") now).1
          (s2, [{ msg := Msg.DEVICE_STATUS_CHANGED did "offline",
                  excludeClient := none }])
  ({ clients := removeClient st.clients w, storage := r.1 }, r.2)

/-- The freshly created pending command row of `createCommand`. -/
def pendingCommand (i : Nat) (did command parameters : String) (now : Nat) :
    Command :=
  { id := i, deviceId := did, command := command, parameters := parameters,
    status := "pending", result := "", createdAt := now, completedAt := none }

/-- `POST /api/commands` handler body after validation, in the case the
device row exists (`404` otherwise, modelled as `none` with no effect):
create the command (pending), append a "Command created" activity, try
delivery via `sendToDevice`; when delivery fails and the row fetched at
the start said `online`, mark the device offline and broadcast.  The
command's status is never touched after creation.  Returns the new state,
the broadcast calls made, and the created command. -/
def postCommands (st : ServerState) (deviceId command parameters : String)
    (now : Nat) : ServerState × List BroadcastCall × Option Command :=
  match getDeviceByDeviceId st.storage.devices deviceId with
  | none => (st, [], none)
  | some device =>
    let r1 := createCommand st.storage deviceId command parameters now
    let s2 := (createActivity r1.1 (some deviceId) "command"
      (descCommandCreated command) (some "pending") now).1
    let delivered := sendToDevice st.clients deviceId
    if delivered = false ∧ device.status = "online" then
      let s3 := (updateDeviceStatus s2 deviceId "offline" now).1
      ({ clients := st.clients, storage := s3 },
        [{ msg := Msg.DEVICE_STATUS_CHANGED deviceId "offline",
           excludeClient := none }], some r1.2)
    else
      ({ clients := st.clients, storage := s2 }, [], some r1.2)

/-- The three registry-mutating events of the connection lifecycle: a new
connection is pushed, an `AUTH` token message binds a device id on a
socket, and a close removes the socket's entries. -/
inductive ConnOp where
  | register (w : WsRef)
  | bindDev (w : WsRef) (deviceId : String)
  | unregister (w : WsRef)
  deriving Repr

/-- Effect of one registry event on `connectedClients`. -/
def applyConnOp (clients : List ConnectedClient) : ConnOp → List ConnectedClient
  | ConnOp.register w => clients ++ [{ ws := w, readyState := ReadyState.OPEN }]
  | ConnOp.bindDev w d => bindDeviceId clients w d
  | ConnOp.unregister w => removeClient clients w

/-- Run a sequence of registry events from the initial empty registry. -/
def runConnOps (ops : List ConnOp) : List ConnectedClient :=
  ops.foldl applyConnOp []

/-! ### Generic facts about the registry lookup and the broadcaster -/

theorem findByDevice_isSome_iff (l : List ConnectedClient) (d : String) :
    (findByDevice l d).isSome ↔ ∃ c ∈ l, c.deviceId = some d := by
  induction l with
  | nil => simp [findByDevice]
  | cons c rest ih =>
    by_cases h : c.deviceId = some d
    · simp [findByDevice, h]
    · simp [findByDevice, h, ih]

theorem findByDevice_eq_none {l : List ConnectedClient} {d : String}
    (h : ∀ c ∈ l, c.deviceId ≠ some d) : findByDevice l d = none := by
  induction l with
  | nil => rfl
  | cons c rest ih =>
    have hc : c.deviceId ≠ some d := h c (by simp)
    simp only [findByDevice, if_neg hc]
    exact ih fun x hx => h x (by simp [hx])

theorem broadcast_mem_ne_excl (l : List ConnectedClient) (excl : Option WsRef)
    (x : WsRef) (hx : x ∈ broadcastToClients l excl) : excl ≠ some x := by
  induction l with
  | nil => simp [broadcastToClients] at hx
  | cons c rest ih =>
    by_cases h : excl ≠ some c.ws ∧ c.readyState = ReadyState.OPEN
    · rw [broadcastToClients, if_pos h] at hx
      rcases List.mem_cons.mp hx with h1 | h2
      · subst h1; exact h.1
      · exact ih h2
    · rw [broadcastToClients, if_neg h] at hx
      exact ih hx

theorem broadcast_count_zero (l : List ConnectedClient) (excl : Option WsRef)
    (x : WsRef) (hx : ∀ c ∈ l, c.ws ≠ x) :
    (broadcastToClients l excl).count x = 0 := by
  induction l with
  | nil => simp [broadcastToClients]
  | cons c rest ih =>
    have hcx : c.ws ≠ x := hx c (by simp)
    have ih2 := ih fun y hy => hx y (by simp [hy])
    by_cases h : excl ≠ some c.ws ∧ c.readyState = ReadyState.OPEN
    · rw [broadcastToClients, if_pos h, List.count_cons]
      simp [hcx, ih2]
    · rw [broadcastToClients, if_neg h]
      exact ih2

theorem broadcast_count_one (l : List ConnectedClient) (excl : Option WsRef)
    (c : ConnectedClient) (hnd : (l.map ConnectedClient.ws).Nodup)
    (hc : c ∈ l) (hne : excl ≠ some c.ws)
    (hopen : c.readyState = ReadyState.OPEN) :
    (broadcastToClients l excl).count c.ws = 1 := by
  induction l with
  | nil => cases hc
  | cons a rest ih =>
    have hnd2 : (rest.map ConnectedClient.ws).Nodup :=
      (List.nodup_cons.mp (by simpa using hnd)).2
    rcases List.mem_cons.mp hc with rfl | hmem
    · rw [broadcastToClients, if_pos ⟨hne, hopen⟩, List.count_cons_self]
      have h0 : (broadcastToClients rest excl).count c.ws = 0 := by
        apply broadcast_count_zero
        intro y hy hyx
        have : c.ws ∈ rest.map ConnectedClient.ws := by
          exact hyx ▸ List.mem_map_of_mem ConnectedClient.ws hy
        exact (List.nodup_cons.mp (by simpa using hnd)).1 this
      omega
    · have hane : a.ws ≠ c.ws := by
        intro h
        exact (List.nodup_cons.mp (by simpa using hnd)).1
          (h ▸ List.mem_map_of_mem ConnectedClient.ws hmem)
      have ih2 := ih hnd2 hmem
      by_cases h : excl ≠ some a.ws ∧ a.readyState = ReadyState.OPEN
      · rw [broadcastToClients, if_pos h, List.count_cons]
        simp [ih2, hane, Ne.symm hane]
      · rw [broadcastToClients, if_neg h]
        exact ih2

/-! ### Claim C1 -/

/-- C1: after every sequence of connection register, device bind and
unregister events on `connectedClients`, the lookup used by `sendToDevice`
finds a connection for deviceId `d` if and only if at least one
not-yet-removed entry of the registry has its deviceId equal to `d`. -/
theorem C1_findByDevice_iff_live_binding (ops : List ConnOp) (d : String) :
    (findByDevice (runConnOps ops) d).isSome ↔
      ∃ c ∈ runConnOps ops, c.deviceId = some d :=
  findByDevice_isSome_iff (runConnOps ops) d

/-! ### Claim C2 -/

/-- C2: `broadcastToClients` never writes to the excluded socket, and
writes exactly once to every other currently registered connection whose
socket readyState is OPEN (socket references being distinct across
registry entries, as object references are). -/
theorem C2_broadcast_delivery (clients : List ConnectedClient)
    (excl : Option WsRef) (c : ConnectedClient)
    (hnd : (clients.map ConnectedClient.ws).Nodup)
    (hc : c ∈ clients) (hne : excl ≠ some c.ws)
    (hopen : c.readyState = ReadyState.OPEN) :
    ((broadcastToClients clients excl).all fun x => decide (excl ≠ some x)) = true ∧
    (broadcastToClients clients excl).count c.ws = 1 := by
  constructor
  · rw [List.all_eq_true]
    intro x hx
    exact decide_eq_true (broadcast_mem_ne_excl clients excl x hx)
  · exact broadcast_count_one clients excl c hnd hc hne hopen

/-- A dashboard client entry used in concrete instantiations. -/
def cDash : ConnectedClient :=
  { ws := ⟨1⟩, readyState := ReadyState.OPEN, userId := some 7 }

/-- A device client entry used in concrete instantiations. -/
def cDev : ConnectedClient :=
  { ws := ⟨2⟩, readyState := ReadyState.OPEN, deviceId := some "d1" }

/-- C2 witness: broadcasting to a registry of a dashboard client and a
device client, excluding the dashboard's socket, skips the excluded socket
and delivers exactly once to the device client. -/
theorem C2_broadcast_delivery_witness :
    ((broadcastToClients [cDash, cDev] (some ⟨1⟩)).all
      fun x => decide ((some (⟨1⟩ : WsRef) : Option WsRef) ≠ some x)) = true ∧
    (broadcastToClients [cDash, cDev] (some ⟨1⟩)).count cDev.ws = 1 :=
  C2_broadcast_delivery [cDash, cDev] (some ⟨1⟩) cDev (by decide) (by decide)
    (by decide) (by decide)

/-! ### Claim C3 -/

/-- C3: `sendToDevice` returns `false` whenever no registered connection
is bound to the target deviceId, and returns `true` only when the write to
the found connection's transport succeeds — in this embedding a transport
write succeeds exactly when the socket's readyState is OPEN, the condition
the code tests before writing. -/
theorem C3_sendToDevice_false_true (clients : List ConnectedClient) (d : String)
    (clients2 : List ConnectedClient) (d2 : String)
    (hnone : ∀ c ∈ clients, c.deviceId ≠ some d)
    (htrue : sendToDevice clients2 d2 = true) :
    sendToDevice clients d = false ∧
    (findByDevice clients2 d2).map ConnectedClient.readyState =
      some ReadyState.OPEN := by
  constructor
  · rw [sendToDevice, findByDevice_eq_none hnone]
  · rw [sendToDevice] at htrue
    cases h : findByDevice clients2 d2 with
    | none => rw [h] at htrue; simp at htrue
    | some c =>
      rw [h] at htrue
      by_cases hrs : c.readyState = ReadyState.OPEN
      · simp [hrs]
      · simp [hrs] at htrue

/-- C3 witness: on an empty registry the send reports `false`; on a
registry holding one OPEN connection bound to `d1` the send reports `true`
and the found connection is indeed OPEN. -/
theorem C3_sendToDevice_false_true_witness :
    sendToDevice [] "a" = false ∧
    (findByDevice [cDev] "d1").map ConnectedClient.readyState =
      some ReadyState.OPEN :=
  C3_sendToDevice_false_true [] "a" [cDev] "d1" (by simp) (by decide)

/-! ### Claim C7 -/

/-- A second device client bound to the same deviceId as `cDev`,
registered later. -/
def cDevLater : ConnectedClient :=
  { ws := ⟨3⟩, readyState := ReadyState.OPEN, deviceId := some "d1" }

/-- Registry event sequence producing two live connections bound to the
same deviceId: socket 1 registers and binds d1, then socket 2 registers
and binds d1 (socket 2 is the most recently registered). -/
def dupOps : List ConnOp :=
  [ConnOp.register ⟨1⟩, ConnOp.bindDev ⟨1⟩ "d1",
   ConnOp.register ⟨2⟩, ConnOp.bindDev ⟨2⟩ "d1"]

/-- C7 counterexample: running `dupOps` leaves two live OPEN connections
bound to `d1`; the lookup used by `sendToDevice` returns the entry of
socket 1 — the EARLIEST registered one (`connectedClients.find` takes the
first match in push order) — and not the most recently registered
socket 2. -/
theorem C7_counterexample_first_match_wins :
    findByDevice (runConnOps dupOps) "d1" =
      some { ws := ⟨1⟩, readyState := ReadyState.OPEN,
             deviceId := some "d1" } ∧
    (findByDevice (runConnOps dupOps) "d1").map ConnectedClient.ws ≠
      some ⟨2⟩ := by
  decide

/-- C7 amended: if several live connections are bound to the same
deviceId, the lookup used by `sendToDevice` addresses the earliest
registered of them (the first match in registration order); all later
duplicates are ignored. -/
theorem C7_amended_earliest_registered_wins (front : List ConnectedClient)
    (c : ConnectedClient) (rest : List ConnectedClient) (d : String)
    (hfront : ∀ x ∈ front, x.deviceId ≠ some d) (hc : c.deviceId = some d) :
    findByDevice (front ++ c :: rest) d = some c := by
  induction front with
  | nil => simp [findByDevice, hc]
  | cons x xs ih =>
    have hx : x.deviceId ≠ some d := hfront x (by simp)
    rw [List.cons_append, findByDevice, if_neg hx]
    exact ih fun y hy => hfront y (by simp [hy])

/-- C7 amended witness: with `cDev` registered before `cDevLater`, both
bound to `d1`, the lookup addresses `cDev`. -/
theorem C7_amended_earliest_registered_wins_witness :
    findByDevice ([] ++ cDev :: [cDevLater]) "d1" = some cDev :=
  C7_amended_earliest_registered_wins [] cDev [cDevLater] "d1" (by simp)
    (by decide)

/-! ### Generic facts about the entity store -/

theorem getDeviceByDeviceId_mem {l : List Device} {did : String} {d : Device}
    (h : getDeviceByDeviceId l did = some d) : d ∈ l ∧ d.deviceId = did := by
  induction l with
  | nil => simp [getDeviceByDeviceId] at h
  | cons a rest ih =>
    by_cases ha : a.deviceId = did
    · rw [getDeviceByDeviceId, if_pos ha] at h
      have h2 : a = d := Option.some.inj h
      exact ⟨by simp [h2], h2 ▸ ha⟩
    · rw [getDeviceByDeviceId, if_neg ha] at h
      have h3 := ih h
      exact ⟨List.mem_cons_of_mem a h3.1, h3.2⟩

theorem getDeviceById_of_mem {l : List Device} {d : Device}
    (hd : d ∈ l) (hnd : (l.map Device.id).Nodup) : getDeviceById l d.id = some d := by
  induction l with
  | nil => cases hd
  | cons a rest ih =>
    rcases List.mem_cons.mp hd with rfl | hmem
    · simp [getDeviceById]
    · have hane : a.id ≠ d.id := fun h =>
        (List.nodup_cons.mp (by simpa using hnd)).1
          (h ▸ List.mem_map_of_mem Device.id hmem)
      rw [getDeviceById, if_neg hane]
      exact ih hmem (List.nodup_cons.mp (by simpa using hnd)).2

theorem setDevice_id_not_mem {l : List Device} {i : Nat} {d2 : Device}
    (h : ∀ x ∈ l, x.id ≠ i) : setDevice l i d2 = l := by
  induction l with
  | nil => rfl
  | cons a rest ih =>
    rw [setDevice, if_neg (h a (by simp))]
    rw [ih fun x hx => h x (by simp [hx])]

theorem map_lastActive_setDevice {l : List Device} {d d2 : Device}
    (hd : d ∈ l) (hnd : (l.map Device.id).Nodup)
    (hla : d2.lastActive = d.lastActive) :
    (setDevice l d.id d2).map Device.lastActive = l.map Device.lastActive := by
  induction l with
  | nil => rfl
  | cons a rest ih =>
    rcases List.mem_cons.mp hd with rfl | hmem
    · rw [setDevice, if_pos rfl]
      have hrest : setDevice rest d.id d2 = rest :=
        setDevice_id_not_mem fun x hx h =>
          (List.nodup_cons.mp (by simpa using hnd)).1
            (h ▸ List.mem_map_of_mem Device.id hx)
      rw [hrest]
      simp [hla]
    · have hane : a.id ≠ d.id := fun h =>
        (List.nodup_cons.mp (by simpa using hnd)).1
          (h ▸ List.mem_map_of_mem Device.id hmem)
      rw [setDevice, if_neg hane]
      simp [ih hmem (List.nodup_cons.mp (by simpa using hnd)).2]

/-! ### Claim C6 -/

/-- A device row that is online, used in concrete instantiations. -/
def devOnline : Device :=
  { id := 1, deviceId := "d1", name := "dev", platform := "windows",
    os := "win", status := "online", lastActive := 0, createdAt := 0,
    info := "" }

/-- A command row already in the terminal state `completed`. -/
def cmdCompleted : Command :=
  { id := 1, deviceId := "d1", command := "ping", parameters := "",
    status := "completed", result := "pong", createdAt := 0,
    completedAt := some 1 }

/-- A store holding `devOnline` and the terminal `cmdCompleted`. -/
def storTerm : Storage :=
  { devices := [devOnline], commands := [cmdCompleted], activities := [],
    currentDeviceIdCtr := 2, currentCommandIdCtr := 2,
    currentActivityIdCtr := 1 }

/-- Server state with the device client `cDev` connected and `storTerm`. -/
def stTerm : ServerState :=
  { clients := [cDev], storage := storTerm }

/-- C6 counterexample: command 1 is in the terminal state `completed`, yet
a later COMMAND_RESPONSE from the bound device connection transitions its
status to `failed` — `updateCommand` has no terminal-state guard, so
terminal states are not final. -/
theorem C6_counterexample_terminal_overwritten :
    (getCommandById stTerm.storage.commands 1).map Command.status =
      some "completed" ∧
    (getCommandById
        (handleCommandResponse stTerm ⟨2⟩ 1 "failed" "late" 9).1.storage.commands
        1).map Command.status = some "failed" := by
  decide

/-- C6 amended: `updateCommand` applies the patch regardless of the
command's current status; a COMMAND_RESPONSE patch overwrites status,
result AND completedAt (restamped with the processing time) even when the
command is already `completed` or `failed` — terminal states are not
final. -/
theorem C6_amended_update_applies_regardless (s : Storage) (i : Nat)
    (now : Nat) (c : Command) (stNew resNew : String)
    (hc : getCommandById s.commands i = some c)
    (hterm : c.status = "completed" ∨ c.status = "failed") :
    (updateCommand s i
        { status := some stNew, result := some resNew,
          completedAt := some (some now) } now).2.map Command.status =
      some stNew ∧
    (updateCommand s i
        { status := some stNew, result := some resNew,
          completedAt := some (some now) } now).2.map Command.result =
      some resNew ∧
    (updateCommand s i
        { status := some stNew, result := some resNew,
          completedAt := some (some now) } now).2.map Command.completedAt =
      some (some now) := by
  simp only [updateCommand, hc]
  by_cases hp : some stNew = some "completed" ∨ some stNew = some "failed"
  · simp [applyCommandPatch, if_pos hp]
  · simp [applyCommandPatch, if_neg hp]

/-- C6 amended witness: updating the already-completed command 1 of
`storTerm` with a `failed` response patch yields status `failed`, the new
result, and a restamped completedAt. -/
theorem C6_amended_update_applies_regardless_witness :
    (updateCommand storTerm 1
        { status := some "failed", result := some "late",
          completedAt := some (some 9) } 9).2.map Command.status =
      some "failed" ∧
    (updateCommand storTerm 1
        { status := some "failed", result := some "late",
          completedAt := some (some 9) } 9).2.map Command.result =
      some "late" ∧
    (updateCommand storTerm 1
        { status := some "failed", result := some "late",
          completedAt := some (some 9) } 9).2.map Command.completedAt =
      some (some 9) :=
  C6_amended_update_applies_regardless storTerm 1 9 cmdCompleted "failed"
    "late" (by decide) (Or.inl (by decide))

/-! ### Claim C9 -/

/-- A device row whose `lastActive` is stale (5), used to show that an
info update does not refresh it. -/
def devStale : Device :=
  { id := 1, deviceId := "d1", name := "dev", platform := "windows",
    os := "win", status := "online", lastActive := 5, createdAt := 0,
    info := "old" }

/-- Server state with `cDev` connected (bound to d1) and the stale row. -/
def stStale : ServerState :=
  { clients := [cDev],
    storage := { devices := [devStale], commands := [], activities := [],
                 currentDeviceIdCtr := 2, currentCommandIdCtr := 1,
                 currentActivityIdCtr := 1 } }

/-- C9 counterexample: a DEVICE_INFO message processed at time 10 merges
the new info but leaves the device's `lastActive` at its old value 5 —
`updateDevice` never touches `lastActive`, so info updates do not refresh
it as the claim states. -/
theorem C9_counterexample_info_keeps_lastActive :
    (getDeviceByDeviceId
        (handleDeviceInfo stStale ⟨2⟩ "new" 10).1.storage.devices
        "d1").map Device.lastActive = some 5 ∧
    (5 : Nat) ≠ 10 := by
  decide

/-- C9 amended: every status transition (`updateDeviceStatus`) stamps the
device's `lastActive` with the current time, but an info update
(DEVICE_INFO via `updateDevice`) leaves every device's `lastActive`
unchanged. -/
theorem C9_amended_lastActive (s : Storage) (did status2 : String)
    (now : Nat) (d : Device) (st : ServerState) (w : WsRef) (info : String)
    (now2 : Nat)
    (hd : getDeviceByDeviceId s.devices did = some d)
    (hnd : (st.storage.devices.map Device.id).Nodup) :
    (updateDeviceStatus s did status2 now).2 =
      some { d with status := status2, lastActive := now } ∧
    (handleDeviceInfo st w info now2).1.storage.devices.map Device.lastActive =
      st.storage.devices.map Device.lastActive := by
  constructor
  · simp only [updateDeviceStatus, hd]
  · cases hfc : findClient st.clients w with
    | none => simp [handleDeviceInfo, hfc]
    | some ci =>
      cases hdid : ci.deviceId with
      | none => simp [handleDeviceInfo, hfc, hdid]
      | some did2 =>
        by_cases hblank : did2 = ""
        · simp [handleDeviceInfo, hfc, hdid, hblank]
        · cases hdev : getDeviceByDeviceId st.storage.devices did2 with
          | none => simp [handleDeviceInfo, hfc, hdid, hblank, hdev]
          | some device =>
            have hmem := (getDeviceByDeviceId_mem hdev).1
            have hup : (updateDevice st.storage device.id
                { info := some info }).1.devices =
                setDevice st.storage.devices device.id
                  (applyDevicePatch device { info := some info }) := by
              simp only [updateDevice, getDeviceById_of_mem hmem hnd]
            simp only [handleDeviceInfo, hfc, hdid]
            rw [if_neg hblank]
            simp only [hdev, hup]
            exact map_lastActive_setDevice hmem hnd rfl

/-- C9 amended witness: a status transition at time 10 stamps lastActive
10 on the stale row, while a DEVICE_INFO at time 10 leaves the lastActive
column of the store unchanged. -/
theorem C9_amended_lastActive_witness :
    (updateDeviceStatus stStale.storage "d1" "offline" 10).2 =
      some { devStale with status := "offline", lastActive := 10 } ∧
    (handleDeviceInfo stStale ⟨2⟩ "new" 10).1.storage.devices.map
        Device.lastActive =
      stStale.storage.devices.map Device.lastActive :=
  C9_amended_lastActive stStale.storage "d1" "offline" 10 devStale stStale
    ⟨2⟩ "new" 10 (by decide) (by decide)

theorem getDeviceByDeviceId_setDevice {l : List Device} {did : String}
    {d d2 : Device} (h : getDeviceByDeviceId l did = some d)
    (hnd : (l.map Device.id).Nodup) (h2 : d2.deviceId = did) :
    getDeviceByDeviceId (setDevice l d.id d2) did = some d2 := by
  induction l with
  | nil => simp [getDeviceByDeviceId] at h
  | cons a rest ih =>
    by_cases ha : a.deviceId = did
    · have had : a = d :=
        Option.some.inj (by rwa [getDeviceByDeviceId, if_pos ha] at h)
      subst had
      rw [setDevice, if_pos rfl, getDeviceByDeviceId, if_pos h2]
    · rw [getDeviceByDeviceId, if_neg ha] at h
      have hmem := (getDeviceByDeviceId_mem h).1
      have hane : a.id ≠ d.id := fun hid =>
        (List.nodup_cons.mp (by simpa using hnd)).1
          (hid ▸ List.mem_map_of_mem Device.id hmem)
      rw [setDevice, if_neg hane, getDeviceByDeviceId, if_neg ha]
      exact ih h (List.nodup_cons.mp (by simpa using hnd)).2

/-! ### Claim C5 -/

/-- Initial state of the double-broadcast scenario: device d1 exists and
is recorded online; nothing connected yet. -/
def st5a : ServerState :=
  { clients := [],
    storage := { devices := [devOnline], commands := [], activities := [],
                 currentDeviceIdCtr := 2, currentCommandIdCtr := 1,
                 currentActivityIdCtr := 1 } }

/-- Socket 1 connects. -/
def st5b : ServerState := handleConnection st5a ⟨1⟩

/-- Socket 1 authenticates as device d1 at time 1. -/
def st5c : ServerState := (handleAuth st5b ⟨1⟩ (some "tok") none "d1" 1).1

/-- The transport dies: socket 1 becomes CLOSED, but the asynchronous
`close` event has not yet been delivered to the server. -/
def st5d : ServerState := setReadyState st5c ⟨1⟩ ReadyState.CLOSED

/-- A command is posted to d1 at time 2: delivery fails (socket not OPEN),
so the self-heal path marks d1 offline and broadcasts. -/
def postRes5 : ServerState × List BroadcastCall × Option Command :=
  postCommands st5d "d1" "ping" "" 2

/-- The `close` event for socket 1 is finally delivered at time 3. -/
def closeRes5 : ServerState × List BroadcastCall :=
  handleClose postRes5.1 ⟨1⟩ 3

/-- The offline status-change broadcast for d1. -/
def offlineCallD1 : BroadcastCall :=
  { msg := Msg.DEVICE_STATUS_CHANGED "d1" "offline", excludeClient := none }

/-- C5 counterexample: when a failed command delivery is detected before
the close event of the same dead connection, the failed-delivery path
broadcasts DEVICE_STATUS_CHANGED(offline) once and the close handler
broadcasts it again — two broadcasts, not the exactly-one idempotent
transition the claim states. -/
theorem C5_counterexample_double_offline_broadcast :
    postRes5.2.1 = [offlineCallD1] ∧ closeRes5.2 = [offlineCallD1] ∧
    (postRes5.2.1 ++ closeRes5.2).count offlineCallD1 = 2 := by
  decide

/-- C5 amended: after a connection bound to a truthy (nonempty) deviceId
closes, the device's stored status becomes offline and the close handler
emits exactly one DEVICE_STATUS_CHANGED(offline) broadcast per close — but
the transition is not deduplicated against other offline transitions: the
close handler never consults the stored status, so a failed-delivery
detection before the close yields a second broadcast. -/
theorem C5_amended_close_offline_broadcast (st : ServerState) (w : WsRef)
    (now : Nat) (ci : ConnectedClient) (did : String) (device : Device)
    (hci : findClient st.clients w = some ci)
    (hdid : ci.deviceId = some did)
    (hne : did ≠ "")
    (hdev : getDeviceByDeviceId st.storage.devices did = some device)
    (hnd : (st.storage.devices.map Device.id).Nodup) :
    (handleClose st w now).2 =
      [{ msg := Msg.DEVICE_STATUS_CHANGED did "offline",
         excludeClient := none }] ∧
    getDeviceByDeviceId (handleClose st w now).1.storage.devices did =
      some { device with status := "offline", lastActive := now } := by
  have hdevs : (handleClose st w now).1.storage.devices =
      setDevice st.storage.devices device.id
        { device with status := "offline", lastActive := now } := by
    simp only [handleClose, hci, hdid]
    rw [if_neg hne]
    simp only [updateDeviceStatus, hdev, createActivity]
  constructor
  · simp only [handleClose, hci, hdid]
    rw [if_neg hne]
  · rw [hdevs]
    exact getDeviceByDeviceId_setDevice hdev hnd
      (getDeviceByDeviceId_mem hdev).2

/-- C5 amended witness: closing the connection of `cDev` (bound to the
nonempty d1, device row present and online) at time 7 emits one offline
broadcast and leaves d1 recorded offline. -/
theorem C5_amended_close_offline_broadcast_witness :
    (handleClose stTerm ⟨2⟩ 7).2 =
      [{ msg := Msg.DEVICE_STATUS_CHANGED "d1" "offline",
         excludeClient := none }] ∧
    getDeviceByDeviceId (handleClose stTerm ⟨2⟩ 7).1.storage.devices "d1" =
      some { devOnline with status := "offline", lastActive := 7 } :=
  C5_amended_close_offline_broadcast stTerm ⟨2⟩ 7 cDev "d1" devOnline
    (by decide) (by decide) (by decide) (by decide) (by decide)

/-! ### Claim C8 -/

/-- A connection bound to a deviceId with no device row. -/
def cGhost : ConnectedClient :=
  { ws := ⟨4⟩, readyState := ReadyState.OPEN, deviceId := some "ghost" }

/-- State with `cGhost` connected and a completely empty store. -/
def stGhost : ServerState :=
  { clients := [cGhost],
    storage := { devices := [], commands := [], activities := [],
                 currentDeviceIdCtr := 1, currentCommandIdCtr := 1,
                 currentActivityIdCtr := 1 } }

/-- C8 counterexample: the close of a connection bound to an unknown
deviceId still broadcasts DEVICE_STATUS_CHANGED(offline) and still appends
a "Device disconnected" activity to the store — not the no-op with no
broadcast the claim states. -/
theorem C8_counterexample_ghost_close_not_noop :
    (handleClose stGhost ⟨4⟩ 5).2 =
      [{ msg := Msg.DEVICE_STATUS_CHANGED "ghost" "offline",
         excludeClient := none }] ∧
    (handleClose stGhost ⟨4⟩ 5).1.storage.activities ≠ [] := by
  decide

/-- C8 amended: a COMMAND_RESPONSE whose commandId matches no stored
command is a complete no-op (state unchanged, no activity, no broadcast);
but the close of a connection bound to a truthy (nonempty) deviceId with
no device row, while leaving the devices and commands maps untouched,
still appends a "Device disconnected" activity and still broadcasts
DEVICE_STATUS_CHANGED offline. -/
theorem C8_amended_missing_entity (st : ServerState) (w : WsRef)
    (ci : ConnectedClient) (did : String) (cid : Nat) (stt res : String)
    (now : Nat)
    (hci : findClient st.clients w = some ci)
    (hdid : ci.deviceId = some did)
    (hne : did ≠ "")
    (hcmd : getCommandById st.storage.commands cid = none)
    (hdev : getDeviceByDeviceId st.storage.devices did = none) :
    handleCommandResponse st w cid stt res now = (st, []) ∧
    (handleClose st w now).1.storage.devices = st.storage.devices ∧
    (handleClose st w now).1.storage.commands = st.storage.commands ∧
    (handleClose st w now).2 =
      [{ msg := Msg.DEVICE_STATUS_CHANGED did "offline",
         excludeClient := none }] ∧
    (handleClose st w now).1.storage.activities =
      st.storage.activities ++
        [{ id := st.storage.currentActivityIdCtr, deviceId := some did,
           activityType := "status", description := "Device disconnected",
           status := some "completed", createdAt := now }] := by
  refine ⟨?_, ?_, ?_, ?_, ?_⟩
  · simp [handleCommandResponse, hci, hdid, hne, updateCommand, hcmd]
  · simp only [handleClose, hci, hdid]
    rw [if_neg hne]
    simp only [updateDeviceStatus, hdev, createActivity]
  · simp only [handleClose, hci, hdid]
    rw [if_neg hne]
    simp only [updateDeviceStatus, hdev, createActivity]
  · simp only [handleClose, hci, hdid]
    rw [if_neg hne]
  · simp only [handleClose, hci, hdid]
    rw [if_neg hne]
    simp only [updateDeviceStatus, hdev, createActivity]

/-- C8 amended witness: in `stGhost`, an unknown commandId response is a
strict no-op, and closing the ghost-bound connection leaves devices and
commands untouched while appending the disconnect activity and emitting
the offline broadcast. -/
theorem C8_amended_missing_entity_witness :
    handleCommandResponse stGhost ⟨4⟩ 0 "completed" "r" 5 = (stGhost, []) ∧
    (handleClose stGhost ⟨4⟩ 5).1.storage.devices =
      stGhost.storage.devices ∧
    (handleClose stGhost ⟨4⟩ 5).1.storage.commands =
      stGhost.storage.commands ∧
    (handleClose stGhost ⟨4⟩ 5).2 =
      [{ msg := Msg.DEVICE_STATUS_CHANGED "ghost" "offline",
         excludeClient := none }] ∧
    (handleClose stGhost ⟨4⟩ 5).1.storage.activities =
      stGhost.storage.activities ++
        [{ id := stGhost.storage.currentActivityIdCtr,
           deviceId := some "ghost", activityType := "status",
           description := "Device disconnected", status := some "completed",
           createdAt := 5 }] :=
  C8_amended_missing_entity stGhost ⟨4⟩ cGhost "ghost" 0 "completed" "r" 5
    (by decide) (by decide) (by decide) (by decide) (by decide)

theorem getCommandById_append_self (l : List Command) (c : Command)
    (h : ∀ x ∈ l, x.id ≠ c.id) : getCommandById (l ++ [c]) c.id = some c := by
  induction l with
  | nil => simp [getCommandById]
  | cons a rest ih =>
    rw [List.cons_append, getCommandById, if_neg (h a (by simp))]
    exact ih fun x hx => h x (by simp [hx])

theorem updateDeviceStatus_commands (s : Storage) (did stt : String)
    (now : Nat) : (updateDeviceStatus s did stt now).1.commands = s.commands := by
  cases h : getDeviceByDeviceId s.devices did <;>
    simp [updateDeviceStatus, h]

/-! ### Claim C4 -/

/-- C4: a command created over POST /api/commands for an existing device
is created `pending` and is stored `pending` whatever the delivery
outcome — covered for all three outcomes: delivery failed with the fetched
row saying `online` (the device flips to offline with exactly one
DEVICE_STATUS_CHANGED broadcast), delivery failed with the row already
`offline` (devices map untouched, nothing broadcast), and delivery
succeeded (devices map untouched, nothing broadcast, command still
`pending`). -/
theorem C4_postCommands_pending_and_selfheal
    (st : ServerState) (did command parameters : String) (now : Nat)
    (device : Device)
    (st2 : ServerState) (did2 command2 parameters2 : String) (now2 : Nat)
    (device2 : Device)
    (st3 : ServerState) (did3 command3 parameters3 : String) (now3 : Nat)
    (device3 : Device)
    (hdev : getDeviceByDeviceId st.storage.devices did = some device)
    (hfresh : ∀ c ∈ st.storage.commands, c.id < st.storage.currentCommandIdCtr)
    (hnd : (st.storage.devices.map Device.id).Nodup)
    (hfail : sendToDevice st.clients did = false)
    (honline : device.status = "online")
    (hdev2 : getDeviceByDeviceId st2.storage.devices did2 = some device2)
    (hfresh2 : ∀ c ∈ st2.storage.commands,
      c.id < st2.storage.currentCommandIdCtr)
    (hfail2 : sendToDevice st2.clients did2 = false)
    (hoffline : device2.status = "offline")
    (hdev3 : getDeviceByDeviceId st3.storage.devices did3 = some device3)
    (hfresh3 : ∀ c ∈ st3.storage.commands,
      c.id < st3.storage.currentCommandIdCtr)
    (hsucc : sendToDevice st3.clients did3 = true) :
    (postCommands st did command parameters now).2.2 =
      some (pendingCommand st.storage.currentCommandIdCtr did command
        parameters now) ∧
    (pendingCommand st.storage.currentCommandIdCtr did command parameters
      now).status = "pending" ∧
    getCommandById
        (postCommands st did command parameters now).1.storage.commands
        st.storage.currentCommandIdCtr =
      some (pendingCommand st.storage.currentCommandIdCtr did command
        parameters now) ∧
    (postCommands st did command parameters now).2.1 =
      [{ msg := Msg.DEVICE_STATUS_CHANGED did "offline",
         excludeClient := none }] ∧
    getDeviceByDeviceId
        (postCommands st did command parameters now).1.storage.devices did =
      some { device with status := "offline", lastActive := now } ∧
    (postCommands st2 did2 command2 parameters2 now2).2.2 =
      some (pendingCommand st2.storage.currentCommandIdCtr did2 command2
        parameters2 now2) ∧
    getCommandById
        (postCommands st2 did2 command2 parameters2 now2).1.storage.commands
        st2.storage.currentCommandIdCtr =
      some (pendingCommand st2.storage.currentCommandIdCtr did2 command2
        parameters2 now2) ∧
    (postCommands st2 did2 command2 parameters2 now2).2.1 = [] ∧
    (postCommands st2 did2 command2 parameters2 now2).1.storage.devices =
      st2.storage.devices ∧
    (postCommands st3 did3 command3 parameters3 now3).2.2 =
      some (pendingCommand st3.storage.currentCommandIdCtr did3 command3
        parameters3 now3) ∧
    getCommandById
        (postCommands st3 did3 command3 parameters3 now3).1.storage.commands
        st3.storage.currentCommandIdCtr =
      some (pendingCommand st3.storage.currentCommandIdCtr did3 command3
        parameters3 now3) ∧
    (postCommands st3 did3 command3 parameters3 now3).2.1 = [] ∧
    (postCommands st3 did3 command3 parameters3 now3).1.storage.devices =
      st3.storage.devices := by
  have hpostA : postCommands st did command parameters now =
      ({ clients := st.clients,
         storage := (updateDeviceStatus
           (createActivity
             (createCommand st.storage did command parameters now).1
             (some did) "command" (descCommandCreated command)
             (some "pending") now).1 did "offline" now).1 },
       [{ msg := Msg.DEVICE_STATUS_CHANGED did "offline",
          excludeClient := none }],
       some (pendingCommand st.storage.currentCommandIdCtr did command
         parameters now)) := by
    simp only [postCommands, hdev]
    rw [if_pos ⟨hfail, honline⟩]
    rfl
  have hcondB : ¬(sendToDevice st2.clients did2 = false ∧
      device2.status = "online") := by
    intro h
    rw [hoffline] at h
    exact absurd h.2 (by decide)
  have hpostB : postCommands st2 did2 command2 parameters2 now2 =
      ({ clients := st2.clients,
         storage := (createActivity
           (createCommand st2.storage did2 command2 parameters2 now2).1
           (some did2) "command" (descCommandCreated command2)
           (some "pending") now2).1 },
       [],
       some (pendingCommand st2.storage.currentCommandIdCtr did2 command2
         parameters2 now2)) := by
    simp only [postCommands, hdev2]
    rw [if_neg hcondB]
    rfl
  have hcondC : ¬(sendToDevice st3.clients did3 = false ∧
      device3.status = "online") := by
    intro h
    rw [hsucc] at h
    exact absurd h.1 (by decide)
  have hpostC : postCommands st3 did3 command3 parameters3 now3 =
      ({ clients := st3.clients,
         storage := (createActivity
           (createCommand st3.storage did3 command3 parameters3 now3).1
           (some did3) "command" (descCommandCreated command3)
           (some "pending") now3).1 },
       [],
       some (pendingCommand st3.storage.currentCommandIdCtr did3 command3
         parameters3 now3)) := by
    simp only [postCommands, hdev3]
    rw [if_neg hcondC]
    rfl
  refine ⟨?_, rfl, ?_, ?_, ?_, ?_, ?_, ?_, ?_, ?_, ?_, ?_, ?_⟩
  · rw [hpostA]
  · rw [hpostA]
    simp only [updateDeviceStatus_commands, createActivity, createCommand,
      pendingCommand]
    exact getCommandById_append_self st.storage.commands _ fun x hx =>
      Nat.ne_of_lt (hfresh x hx)
  · rw [hpostA]
  · rw [hpostA]
    simp only [createActivity, createCommand, updateDeviceStatus, hdev]
    exact getDeviceByDeviceId_setDevice hdev hnd
      (getDeviceByDeviceId_mem hdev).2
  · rw [hpostB]
  · rw [hpostB]
    simp only [createActivity, createCommand, pendingCommand]
    exact getCommandById_append_self st2.storage.commands _ fun x hx =>
      Nat.ne_of_lt (hfresh2 x hx)
  · rw [hpostB]
  · rw [hpostB]
    simp only [createActivity, createCommand]
  · rw [hpostC]
  · rw [hpostC]
    simp only [createActivity, createCommand, pendingCommand]
    exact getCommandById_append_self st3.storage.commands _ fun x hx =>
      Nat.ne_of_lt (hfresh3 x hx)
  · rw [hpostC]
  · rw [hpostC]
    simp only [createActivity, createCommand]

/-- The same device row as `devOnline` but recorded offline. -/
def devOffline : Device := { devOnline with status := "offline" }

/-- A state whose only device is recorded offline and which has no
connected clients. -/
def stOffline : ServerState :=
  { clients := [],
    storage := { devices := [devOffline], commands := [], activities := [],
                 currentDeviceIdCtr := 2, currentCommandIdCtr := 1,
                 currentActivityIdCtr := 1 } }

/-- C4 witness: posting a command for online-but-unreachable d1 (state
`st5a`, no connections) stores it pending, flips d1 offline and broadcasts
once; posting for the already-offline d1 (state `stOffline`) stores it
pending with no device update and no broadcast; posting for the reachable
d1 (state `stTerm`, OPEN connection bound to d1, delivery succeeds) also
stores it pending with no device update and no broadcast. -/
theorem C4_postCommands_pending_and_selfheal_witness :
    (postCommands st5a "d1" "ping" "" 2).2.2 =
      some (pendingCommand st5a.storage.currentCommandIdCtr "d1" "ping" "" 2) ∧
    (pendingCommand st5a.storage.currentCommandIdCtr "d1" "ping" ""
      2).status = "pending" ∧
    getCommandById (postCommands st5a "d1" "ping" "" 2).1.storage.commands
        st5a.storage.currentCommandIdCtr =
      some (pendingCommand st5a.storage.currentCommandIdCtr "d1" "ping" "" 2) ∧
    (postCommands st5a "d1" "ping" "" 2).2.1 =
      [{ msg := Msg.DEVICE_STATUS_CHANGED "d1" "offline",
         excludeClient := none }] ∧
    getDeviceByDeviceId
        (postCommands st5a "d1" "ping" "" 2).1.storage.devices "d1" =
      some { devOnline with status := "offline", lastActive := 2 } ∧
    (postCommands stOffline "d1" "pwd" "" 3).2.2 =
      some (pendingCommand stOffline.storage.currentCommandIdCtr "d1" "pwd"
        "" 3) ∧
    getCommandById (postCommands stOffline "d1" "pwd" "" 3).1.storage.commands
        stOffline.storage.currentCommandIdCtr =
      some (pendingCommand stOffline.storage.currentCommandIdCtr "d1" "pwd"
        "" 3) ∧
    (postCommands stOffline "d1" "pwd" "" 3).2.1 = [] ∧
    (postCommands stOffline "d1" "pwd" "" 3).1.storage.devices =
      stOffline.storage.devices ∧
    (postCommands stTerm "d1" "ls" "" 4).2.2 =
      some (pendingCommand stTerm.storage.currentCommandIdCtr "d1" "ls"
        "" 4) ∧
    getCommandById (postCommands stTerm "d1" "ls" "" 4).1.storage.commands
        stTerm.storage.currentCommandIdCtr =
      some (pendingCommand stTerm.storage.currentCommandIdCtr "d1" "ls"
        "" 4) ∧
    (postCommands stTerm "d1" "ls" "" 4).2.1 = [] ∧
    (postCommands stTerm "d1" "ls" "" 4).1.storage.devices =
      stTerm.storage.devices :=
  C4_postCommands_pending_and_selfheal st5a "d1" "ping" "" 2 devOnline
    stOffline "d1" "pwd" "" 3 devOffline stTerm "d1" "ls" "" 4 devOnline
    (by decide) (by decide) (by decide) (by decide) (by decide) (by decide)
    (by decide) (by decide) (by decide) (by decide) (by decide) (by decide)

/-! ### Claim C10 -/

theorem findClient_bindDeviceId (l : List ConnectedClient) (w : WsRef)
    (did : String) :
    findClient (bindDeviceId l w did) w =
      (findClient l w).map fun c => { c with deviceId := some did } := by
  induction l with
  | nil => rfl
  | cons c rest ih =>
    by_cases hc : c.ws = w
    · simp [bindDeviceId, findClient, hc]
    · simp [bindDeviceId, findClient, hc, ih]

theorem findByDevice_bindDeviceId (l : List ConnectedClient) (w : WsRef)
    (did : String) (ci : ConnectedClient)
    (hci : findClient l w = some ci)
    (hother : ∀ x ∈ l, x.ws ≠ w → x.deviceId ≠ some did) :
    findByDevice (bindDeviceId l w did) did =
      some { ci with deviceId := some did } := by
  induction l with
  | nil => simp [findClient] at hci
  | cons c rest ih =>
    by_cases hc : c.ws = w
    · rw [findClient, if_pos hc] at hci
      have hceq : c = ci := Option.some.inj hci
      subst hceq
      simp [bindDeviceId, hc, findByDevice]
    · rw [findClient, if_neg hc] at hci
      have hcd : c.deviceId ≠ some did := hother c (by simp) hc
      rw [bindDeviceId, if_neg hc, findByDevice, if_neg hcd]
      exact ih hci fun x hx => hother x (by simp [hx])

theorem handleAuth_clients_of_token (st : ServerState) (w : WsRef)
    (token : Option String) (uid : Option Nat) (did : String) (now : Nat)
    (h : truthyStr token = true) :
    (handleAuth st w token uid did now).1.clients =
      bindDeviceId st.clients w did := by
  simp only [handleAuth, h, if_true]
  cases hdev : getDeviceByDeviceId st.storage.devices did <;> simp [hdev]

/-- C10: an AUTH message with a (truthy) token rebinds the connection's
deviceId unconditionally — even when the entry was already bound; when no
device row matches the sent deviceId, the store is not mutated (so no
activity is created) and nothing is broadcast, yet the connection becomes
addressable: a subsequent `sendToDevice` to that OPEN connection returns
`true`. -/
theorem C10_auth_binds_unconditionally
    (stB : ServerState) (wB : WsRef) (tokB : String) (uidB : Option Nat)
    (didB : String) (nowB : Nat) (ciB : ConnectedClient)
    (st : ServerState) (w : WsRef) (tok : String) (uid : Option Nat)
    (did : String) (now : Nat) (ci : ConnectedClient)
    (htokB : tokB ≠ "")
    (hciB : findClient stB.clients wB = some ciB)
    (htok : tok ≠ "")
    (hnodev : getDeviceByDeviceId st.storage.devices did = none)
    (hci : findClient st.clients w = some ci)
    (hopen : ci.readyState = ReadyState.OPEN)
    (hother : ∀ x ∈ st.clients, x.ws ≠ w → x.deviceId ≠ some did) :
    findClient (handleAuth stB wB (some tokB) uidB didB nowB).1.clients wB =
      some { ciB with deviceId := some didB } ∧
    (handleAuth st w (some tok) uid did now).1.storage = st.storage ∧
    (handleAuth st w (some tok) uid did now).2 = [] ∧
    sendToDevice (handleAuth st w (some tok) uid did now).1.clients did =
      true := by
  have htrB : truthyStr (some tokB) = true := by simp [truthyStr, htokB]
  have htr : truthyStr (some tok) = true := by simp [truthyStr, htok]
  refine ⟨?_, ?_, ?_, ?_⟩
  · rw [handleAuth_clients_of_token stB wB (some tokB) uidB didB nowB htrB,
      findClient_bindDeviceId, hciB]
    rfl
  · simp only [handleAuth, htr, if_true, hnodev]
  · simp only [handleAuth, htr, if_true, hnodev]
  · rw [handleAuth_clients_of_token st w (some tok) uid did now htr,
      sendToDevice, findByDevice_bindDeviceId st.clients w did ci hci hother]
    simp [hopen]

/-- C10 witness: rebinding the already-bound `cDev` in `stTerm` to a new
deviceId succeeds, and in `stGhost` an AUTH for the unknown deviceId
`newdev` leaves the store untouched, broadcasts nothing, and makes the
OPEN connection addressable by `sendToDevice`. -/
theorem C10_auth_binds_unconditionally_witness :
    findClient (handleAuth stTerm ⟨2⟩ (some "t") none "d2" 11).1.clients
        ⟨2⟩ = some { cDev with deviceId := some "d2" } ∧
    (handleAuth stGhost ⟨4⟩ (some "t2") none "newdev" 12).1.storage =
      stGhost.storage ∧
    (handleAuth stGhost ⟨4⟩ (some "t2") none "newdev" 12).2 = [] ∧
    sendToDevice
      (handleAuth stGhost ⟨4⟩ (some "t2") none "newdev" 12).1.clients
      "newdev" = true :=
  C10_auth_binds_unconditionally stTerm ⟨2⟩ "t" none "d2" 11 cDev
    stGhost ⟨4⟩ "t2" none "newdev" 12 cGhost (by decide) (by decide)
    (by decide) (by decide) (by decide) (by decide) (by decide)

end WindowsCrafted
